import Mathlib

/-!
Shallow embedding of the library-management core (users, books, loans,
token revocation, persistence) and proofs of the specified properties.

Collections mirror the Python source:
* loans live in a dict keyed by ISBN (`GestorPrestamos.__prestamos`),
  embedded as an association list whose lookup returns the first match
  and whose deletion removes the key;
* users and books live in Python lists (`GestorUsuarios.__usuarios`,
  `GestorLibros.__libros`), embedded as Lean lists with first-match
  search and first-match removal/update, exactly as the source iterates;
* the revocation store is a SQL table with primary key `jti`, embedded
  as an association list on which insertion of a present key fails.
Timestamps (`datetime.now()` values) are modelled as opaque values
passed in by the caller.
-/

namespace Biblioteca

/-- A user record (`gestion_usuarios/usuario.py`, with the
`Administrador` subclass of `administrador.py` as a role flag). -/
structure Usuario where
  identificador : String
  nombre : String
  apellido1 : String
  apellido2 : String
  hashed_password : String
  esAdministrador : Bool
deriving Repr, DecidableEq

/-- A book record (`gestion_libros/libro.py`). -/
structure Libro where
  isbn : String
  titulo : String
  autor : String
  editorial : String
  anyo : String
deriving Repr, DecidableEq

/-- One loan entry, the dict value `{'usuario': ..., 'fecha': ...}` of
`gestion_prestamos/gestor_prestamos.py`; `fecha` is the opaque
timestamp recorded at loan creation. -/
structure Prestamo where
  usuario : String
  fecha : Nat
deriving Repr, DecidableEq

/-- The loans collection `GestorPrestamos.__prestamos : Dict[str, dict]`:
an association list from ISBN to loan data. -/
abbrev Prestamos := List (String × Prestamo)

/-- The typed errors raised by the managers. -/
inductive BibError where
  | usuarioNoEncontrado (identificador : String)
  | usuarioYaExiste (identificador : String)
  | libroNoEncontrado (isbn : String)
  | libroYaExiste (isbn : String)
  | prestamoNoEncontrado (isbn : String)
  | devolucionInvalida (isbn : String) (identificador : String)
  | libroNoDisponible (isbn : String)
deriving Repr, DecidableEq

/-- `GestorPrestamos.buscar_prestamos`: `self.__prestamos[isbn]`,
returning `None` on a missing key. Dict lookup is embedded as
first-match lookup in the association list. -/
def buscar_prestamos (prestamos : Prestamos) (isbn : String) : Option Prestamo :=
  match prestamos with
  | [] => none
  | (k, p) :: rest => if k = isbn then some p else buscar_prestamos rest isbn

/-- `GestorPrestamos.buscar_prestamos_usuario`: the list of ISBNs whose
loan records name the given user as borrower, in dict order. -/
def buscar_prestamos_usuario (prestamos : Prestamos) (identificador : String) :
    List String :=
  (prestamos.filter (fun kp => kp.2.usuario = identificador)).map (fun kp => kp.1)

/-- `GestorPrestamos.add_prestamo`: if the ISBN is not a key of the
dict, bind it to `{'usuario': identificador, 'fecha': now}`; otherwise
raise `LibroNoDisponibleError`. -/
def add_prestamo (prestamos : Prestamos) (isbn identificador : String)
    (now : Nat) : Except BibError Prestamos :=
  match buscar_prestamos prestamos isbn with
  | none => .ok (prestamos ++ [(isbn, ⟨identificador, now⟩)])
  | some _ => .error (.libroNoDisponible isbn)

/-- `GestorPrestamos.remove_prestamo`: raise `PrestamoNoEncontradoError`
when the ISBN is not a key; raise `DevolucionInvalidaError` when the
recorded borrower differs; otherwise `del` the entry (the dict keeps no
entry under that key afterwards). -/
def remove_prestamo (prestamos : Prestamos) (isbn identificador : String) :
    Except BibError Prestamos :=
  match buscar_prestamos prestamos isbn with
  | none => .error (.prestamoNoEncontrado isbn)
  | some p =>
      if p.usuario = identificador then
        .ok (prestamos.filter (fun kp => kp.1 ≠ isbn))
      else
        .error (.devolucionInvalida isbn identificador)

/-- `GestorUsuarios.buscar_usuario`: the first user in the list whose
`identificador` matches, else `None`. -/
def buscar_usuario (usuarios : List Usuario) (identificador : String) :
    Option Usuario :=
  match usuarios with
  | [] => none
  | u :: rest =>
      if u.identificador = identificador then some u
      else buscar_usuario rest identificador

/-- `GestorUsuarios.add_usuario`: raise `UsuarioYaExisteError` when a
user with that identifier is already present, else append. -/
def add_usuario (usuarios : List Usuario) (usuario : Usuario) :
    Except BibError (List Usuario) :=
  match buscar_usuario usuarios usuario.identificador with
  | some _ => .error (.usuarioYaExiste usuario.identificador)
  | none => .ok (usuarios ++ [usuario])

/-- `self.__usuarios.remove(usuario_a_eliminar)`: the element removed is
the one `buscar_usuario` found, i.e. the first whose identifier
matches. -/
def remove_first_usuario (usuarios : List Usuario) (identificador : String) :
    List Usuario :=
  match usuarios with
  | [] => []
  | u :: rest =>
      if u.identificador = identificador then rest
      else u :: remove_first_usuario rest identificador

/-- `GestorUsuarios.remove_usuario`: raise `UsuarioNoEncontradoError`
when absent, else remove the found user from the list. -/
def remove_usuario (usuarios : List Usuario) (identificador : String) :
    Except BibError (List Usuario) :=
  match buscar_usuario usuarios identificador with
  | some _ => .ok (remove_first_usuario usuarios identificador)
  | none => .error (.usuarioNoEncontrado identificador)

/-- In-place mutation of the three name fields of the user
`buscar_usuario` found: the first whose identifier matches. -/
def update_first_usuario (usuarios : List Usuario)
    (identificador nombre apellido1 apellido2 : String) : List Usuario :=
  match usuarios with
  | [] => []
  | u :: rest =>
      if u.identificador = identificador then
        { u with nombre := nombre, apellido1 := apellido1,
                 apellido2 := apellido2 } :: rest
      else u :: update_first_usuario rest identificador nombre apellido1 apellido2

/-- `GestorUsuarios.update_usuario`: raise `UsuarioNoEncontradoError`
when absent; on success mutate the found user in place. -/
def update_usuario (usuarios : List Usuario)
    (identificador nombre apellido1 apellido2 : String) :
    Except BibError (List Usuario) :=
  match buscar_usuario usuarios identificador with
  | some _ => .ok (update_first_usuario usuarios identificador nombre apellido1 apellido2)
  | none => .error (.usuarioNoEncontrado identificador)

/-- In-place mutation of the stored hash of the user `buscar_usuario`
found. -/
def set_first_password (usuarios : List Usuario)
    (identificador new_password_hash : String) : List Usuario :=
  match usuarios with
  | [] => []
  | u :: rest =>
      if u.identificador = identificador then
        { u with hashed_password := new_password_hash } :: rest
      else u :: set_first_password rest identificador new_password_hash

/-- `GestorUsuarios.cambiar_password`: raise `UsuarioNoEncontradoError`
when the user is absent; return `False` without mutating when the old
hash does not match the stored one; else store the new hash and return
`True`. The result pairs the returned boolean with the collection. -/
def cambiar_password (usuarios : List Usuario)
    (identificador old_password_hash new_password_hash : String) :
    Except BibError (Bool × List Usuario) :=
  match buscar_usuario usuarios identificador with
  | none => .error (.usuarioNoEncontrado identificador)
  | some u =>
      if old_password_hash = u.hashed_password then
        .ok (true, set_first_password usuarios identificador new_password_hash)
      else
        .ok (false, usuarios)

/-- The character class `[@$!%*?&]` of the password pattern. -/
def simbolo_especial (c : Char) : Bool :=
  c = '@' || c = '$' || c = '!' || c = '%' || c = '*' || c = '?' || c = '&'

/-- The character class `[A-Za-z\d@$!%*?&]` of the password pattern
(digits embedded as the decimal digits 0-9). -/
def caracter_permitido (c : Char) : Bool :=
  c.isLower || c.isUpper || c.isDigit || simbolo_especial c

/-- `GestorUsuarios.validar_password`: `re.search` of the anchored
pattern `^(?=.*[a-z])(?=.*[A-Z])(?=.*\d)(?=.*[@$!%*?&])[A-Za-z\d@$!%*?&]{8,}$`.
The dollar anchor also matches just before a single trailing newline,
which is therefore discounted; on the newline-free body the four
lookaheads amount to membership tests, and the bracket expression with
the anchors forces every character of the body into the fixed class
with at least 8 of them. -/
def validar_password (password : String) : Bool :=
  let body := if password.data.getLast? = some '\n'
              then password.data.dropLast else password.data
  decide (8 ≤ body.length) && body.all caracter_permitido &&
    body.any Char.isLower && body.any Char.isUpper &&
    body.any Char.isDigit && body.any simbolo_especial

/-- `GestorLibros.buscar_libro`: the first book in the list whose ISBN
matches, else `None`. -/
def buscar_libro (libros : List Libro) (isbn : String) : Option Libro :=
  match libros with
  | [] => none
  | l :: rest => if l.isbn = isbn then some l else buscar_libro rest isbn

/-- `GestorLibros.add_libro`: raise `LibroYaExisteError` when a book
with that ISBN is already present, else append. -/
def add_libro (libros : List Libro) (libro : Libro) :
    Except BibError (List Libro) :=
  match buscar_libro libros libro.isbn with
  | some _ => .error (.libroYaExiste libro.isbn)
  | none => .ok (libros ++ [libro])

/-- `self.__libros.remove(libro_a_eliminar)`: the element removed is the
one `buscar_libro` found, i.e. the first whose ISBN matches. -/
def remove_first_libro (libros : List Libro) (isbn : String) : List Libro :=
  match libros with
  | [] => []
  | l :: rest =>
      if l.isbn = isbn then rest else l :: remove_first_libro rest isbn

/-- `GestorLibros.remove_libro`: raise `LibroNoEncontradoError` when
absent, else remove the found book. -/
def remove_libro (libros : List Libro) (isbn : String) :
    Except BibError (List Libro) :=
  match buscar_libro libros isbn with
  | some _ => .ok (remove_first_libro libros isbn)
  | none => .error (.libroNoEncontrado isbn)

/-- `isinstance(gu.buscar_usuario(x), Administrador)` in `main.py`:
true when the lookup succeeds and the found user carries the
administrator role (`isinstance(None, Administrador)` is false). -/
def es_admin (usuarios : List Usuario) (identificador : String) : Bool :=
  match buscar_usuario usuarios identificador with
  | some u => u.esAdministrador
  | none => false

/-- The `DELETE /usuario` route (`main.remove_usuario`): reject with 403
when the authenticated caller is not an administrator; reject with 409,
touching nothing, when the target user holds at least one loan; else
delegate to `GestorUsuarios.remove_usuario`, answering 200 on success
and 404 when the user is absent. Returns the HTTP status code together
with the users collection the route leaves behind. -/
def route_remove_usuario (usuarios : List Usuario) (prestamos : Prestamos)
    (current_user identificador : String) : Nat × List Usuario :=
  if es_admin usuarios current_user = false then (403, usuarios)
  else if buscar_prestamos_usuario prestamos identificador ≠ [] then
    (409, usuarios)
  else
    match remove_usuario usuarios identificador with
    | .ok usuarios2 => (200, usuarios2)
    | .error _ => (404, usuarios)

/-- The `token` table of the revocation database: rows `(jti, fecha)`
with `jti` the primary key (`init.py` creates
`token (jti TEXT PRIMARY KEY, fecha DATETIME)`). -/
abbrev TokenStore := List (String × String)

/-- `main.check_if_token_revoked`: `SELECT jti FROM token WHERE jti = ?`
and test whether `fetchone()` returned a row. -/
def check_if_token_revoked (tokens : TokenStore) (jti : String) : Bool :=
  tokens.any (fun t => t.1 = jti)

/-- `main.modify_token` (the `DELETE /logout` route): `INSERT INTO token
(jti, fecha) VALUES (?, ?)` with the formatted current UTC time; a
primary-key collision raises `sqlite3.IntegrityError`, answered with
status 409 and no change to the table; otherwise the row is committed
and the status is 200. -/
def modify_token (tokens : TokenStore) (jti fecha : String) :
    Nat × TokenStore :=
  if tokens.any (fun t => t.1 = jti) then (409, tokens)
  else (200, tokens ++ [(jti, fecha)])

/-- The possible contents of one pickled snapshot file: one complete
collection of one of the three managers. -/
inductive Snapshot where
  | libros (contenido : List Libro)
  | prestamos (contenido : Prestamos)
  | usuarios (contenido : List Usuario)
deriving Repr, DecidableEq

/-- The durable storage: file contents by path, `none` for an absent
file. -/
abbrev Storage := String → Option Snapshot

/-- The path `GestorLibros` serializes to: `cargar_libros` and
`guardar_libros` call `open(PATH_DATA, ...)` directly. -/
def path_libros (PATH_DATA : String) : String := PATH_DATA

/-- The path `GestorPrestamos` serializes to: `cargar_prestamos` and
`guardar_prestamos` call `open(PATH_DATA, ...)` directly. -/
def path_prestamos (PATH_DATA : String) : String := PATH_DATA

/-- `PATH_USUARIOS` of `gestor_usuarios.py`:
`f'{PATH_DATA}/usuarios.pickle'`. -/
def PATH_USUARIOS (PATH_DATA : String) : String :=
  PATH_DATA ++ "/usuarios.pickle"

/-- `GestorLibros.guardar_libros`: pickle the collection at its path,
replacing the prior contents. -/
def guardar_libros (PATH_DATA : String) (st : Storage)
    (libros : List Libro) : Storage :=
  fun p => if p = path_libros PATH_DATA then some (.libros libros) else st p

/-- `GestorPrestamos.guardar_prestamos`. -/
def guardar_prestamos (PATH_DATA : String) (st : Storage)
    (prestamos : Prestamos) : Storage :=
  fun p =>
    if p = path_prestamos PATH_DATA then some (.prestamos prestamos) else st p

/-- `GestorUsuarios.guardar_usuarios`. -/
def guardar_usuarios (PATH_DATA : String) (st : Storage)
    (usuarios : List Usuario) : Storage :=
  fun p =>
    if p = PATH_USUARIOS PATH_DATA then some (.usuarios usuarios) else st p

/-- `GestorLibros.cargar_libros`: unpickle the file at the path;
`FileNotFoundError` yields the empty collection; `none` models the file
holding a pickled value that is not a books collection, so the load
does not return the books last saved. -/
def cargar_libros (PATH_DATA : String) (st : Storage) :
    Option (List Libro) :=
  match st (path_libros PATH_DATA) with
  | none => some []
  | some (.libros ls) => some ls
  | some _ => none

/-- `GestorPrestamos.cargar_prestamos`. -/
def cargar_prestamos (PATH_DATA : String) (st : Storage) :
    Option Prestamos :=
  match st (path_prestamos PATH_DATA) with
  | none => some []
  | some (.prestamos ps) => some ps
  | some _ => none

/-- `GestorUsuarios.cargar_usuarios`. -/
def cargar_usuarios (PATH_DATA : String) (st : Storage) :
    Option (List Usuario) :=
  match st (PATH_USUARIOS PATH_DATA) with
  | none => some []
  | some (.usuarios us) => some us
  | some _ => none

/-- One `volumeInfo` object of a Google Books response, with each field
the code reads made optional as the dict `.get` accesses treat it. -/
structure VolumeInfo where
  title : Option String
  authors : Option (List String)
  publisher : Option String
  publishedDate : Option String
deriving Repr, DecidableEq

/-- The outcome of the `requests.get` call in `Libro.por_isbn`: either
the transport fails (`requests.exceptions.ConnectionError`) or a JSON
body arrives with `totalItems` and the `items` list. -/
inductive RespuestaAPI where
  | connectionError
  | ok (totalItems : Nat) (items : List VolumeInfo)
deriving Repr, DecidableEq

/-- `Libro.por_isbn` on a given service response: raise
`NoConexionError(isbn)` (embedded as `Except.error isbn`) on transport
failure or on `totalItems == 0`; otherwise build the book from
`items[0]`, defaulting `title`/`publisher`/`publishedDate` to the empty
string, taking `authors` with default `[''] ` and indexing its first
element, and keeping only the first 4 characters of `publishedDate`.
The outer `none` models an unhandled Python exception: the `IndexError`
of `items[0]` on an empty list or of `[...][0]` on a present-but-empty
authors list. -/
def por_isbn (isbn : String) (r : RespuestaAPI) :
    Option (Except String Libro) :=
  match r with
  | .connectionError => some (.error isbn)
  | .ok totalItems items =>
      if totalItems = 0 then some (.error isbn)
      else
        match items with
        | [] => none
        | vi :: _ =>
            match (vi.authors.getD [""]).head? with
            | none => none
            | some autor =>
                some (.ok
                  { isbn := isbn
                    titulo := vi.title.getD ""
                    autor := autor
                    editorial := vi.publisher.getD ""
                    anyo := (vi.publishedDate.getD "").take 4 })

/-- Modelled from the spec wording of `validateStrength`, for comparison
with `validar_password` as implemented: true iff the password is at
least 8 characters long and contains at least one lowercase letter, one
uppercase letter, one digit, and one symbol from the fixed punctuation
set `@$!%*?&`. -/
def spec_validateStrength (password : String) : Bool :=
  decide (8 ≤ password.length) && password.data.any Char.isLower &&
    password.data.any Char.isUpper && password.data.any Char.isDigit &&
    password.data.any simbolo_especial

/-- The sample book `init.py` registers. -/
def libroEjemplo : Libro :=
  { isbn := "978-1491946008"
    titulo := "Fluent Python: Clear, Concise, and Effective Programming"
    autor := "Luciano Ramalho"
    editorial := "OReilly Media"
    anyo := "2015" }

/-! ## Helper lemmas -/

/-- A fresh key appended at the end of the dict is found. -/
theorem buscar_prestamos_append (ps : Prestamos) (isbn : String) (p : Prestamo)
    (h : buscar_prestamos ps isbn = none) :
    buscar_prestamos (ps ++ [(isbn, p)]) isbn = some p := by
  induction ps with
  | nil => simp [buscar_prestamos]
  | cons kp rest ih =>
      rw [buscar_prestamos] at h
      rw [List.cons_append, buscar_prestamos]
      by_cases hk : kp.1 = isbn
      · rw [if_pos hk] at h
        exact absurd h (by simp)
      · rw [if_neg hk] at h ⊢
        exact ih h

/-- After deleting a key from the dict, lookup of that key misses. -/
theorem buscar_prestamos_filter (ps : Prestamos) (isbn : String) :
    buscar_prestamos (ps.filter fun kp => kp.1 ≠ isbn) isbn = none := by
  induction ps with
  | nil => simp [buscar_prestamos]
  | cons kp rest ih =>
      by_cases hk : kp.1 = isbn
      · simpa [List.filter, hk] using ih
      · simpa [List.filter, hk, buscar_prestamos] using ih

/-! ## Claims -/

/-- C1: on every loans state, `remove_prestamo` raises
`PrestamoNoEncontradoError` when no loan exists for the ISBN; raises
`DevolucionInvalidaError`, mutating nothing and leaving the loan in
place, when the recorded borrower differs from the caller; and
otherwise deletes the record, after which `buscar_prestamos` misses and
the book can be lent again. -/
theorem remove_prestamo_spec (ps : Prestamos) (isbn identificador : String) :
    (buscar_prestamos ps isbn = none →
      remove_prestamo ps isbn identificador =
        .error (.prestamoNoEncontrado isbn)) ∧
    (∀ p, buscar_prestamos ps isbn = some p → p.usuario ≠ identificador →
      remove_prestamo ps isbn identificador =
        .error (.devolucionInvalida isbn identificador) ∧
      buscar_prestamos ps isbn = some p) ∧
    (∀ p, buscar_prestamos ps isbn = some p → p.usuario = identificador →
      ∃ ps2, remove_prestamo ps isbn identificador = .ok ps2 ∧
        buscar_prestamos ps2 isbn = none ∧
        ∀ u now, add_prestamo ps2 isbn u now =
          .ok (ps2 ++ [(isbn, ⟨u, now⟩)])) := by
  refine ⟨fun h => ?_, fun p hp hne => ?_, fun p hp he => ?_⟩
  · rw [remove_prestamo, h]
  · refine ⟨?_, hp⟩
    simp only [remove_prestamo, hp]
    rw [if_neg hne]
  · refine ⟨ps.filter fun kp => kp.1 ≠ isbn, ?_, ?_, ?_⟩
    · simp only [remove_prestamo, hp]
      rw [if_pos he]
    · exact buscar_prestamos_filter ps isbn
    · intro u now
      rw [add_prestamo, buscar_prestamos_filter ps isbn]

/-- C1 witness: the three branches at concrete states. -/
theorem remove_prestamo_spec_witness :
    remove_prestamo [] "i" "u1" = .error (.prestamoNoEncontrado "i") ∧
    remove_prestamo [("i", ⟨"u1", 0⟩)] "i" "u2" =
      .error (.devolucionInvalida "i" "u2") ∧
    ∃ ps2, remove_prestamo [("i", ⟨"u1", 0⟩)] "i" "u1" = .ok ps2 ∧
      buscar_prestamos ps2 "i" = none :=
  ⟨(remove_prestamo_spec [] "i" "u1").1 (by decide),
   ((remove_prestamo_spec [("i", ⟨"u1", 0⟩)] "i" "u2").2.1 ⟨"u1", 0⟩
     (by decide) (by decide)).1,
   match (remove_prestamo_spec [("i", ⟨"u1", 0⟩)] "i" "u1").2.2 ⟨"u1", 0⟩
     (by decide) (by decide) with
   | ⟨ps2, h1, h2, _⟩ => ⟨ps2, h1, h2⟩⟩

/-- C2: on every loans state where the ISBN is free, `add_prestamo`
records a loan with the given borrower and the current timestamp, and a
second `add_prestamo` for the same ISBN raises
`LibroNoDisponibleError`, preserving the original borrower and start
timestamp. -/
theorem add_prestamo_spec (ps : Prestamos) (isbn u1 u2 : String)
    (now now2 : Nat) (h : buscar_prestamos ps isbn = none) :
    ∃ ps1, add_prestamo ps isbn u1 now = .ok ps1 ∧
      buscar_prestamos ps1 isbn = some ⟨u1, now⟩ ∧
      add_prestamo ps1 isbn u2 now2 = .error (.libroNoDisponible isbn) ∧
      buscar_prestamos ps1 isbn = some ⟨u1, now⟩ := by
  refine ⟨ps ++ [(isbn, ⟨u1, now⟩)], ?_, ?_, ?_, ?_⟩
  · rw [add_prestamo, h]
  · exact buscar_prestamos_append ps isbn _ h
  · rw [add_prestamo, buscar_prestamos_append ps isbn _ h]
  · exact buscar_prestamos_append ps isbn _ h

/-- C2 witness: lending a free book twice at a concrete state. -/
theorem add_prestamo_spec_witness :
    ∃ ps1, add_prestamo [] "i" "u1" 1 = .ok ps1 ∧
      buscar_prestamos ps1 "i" = some ⟨"u1", 1⟩ ∧
      add_prestamo ps1 "i" "u2" 2 = .error (.libroNoDisponible "i") :=
  match add_prestamo_spec [] "i" "u1" "u2" 1 2 (by decide) with
  | ⟨ps1, h1, h2, h3, _⟩ => ⟨ps1, h1, h2, h3⟩

/-- C3: a remove-user request never deletes a user who is recorded as
borrower of some active loan: when the target holds a loan an
administrator caller gets the 409 conflict with the collection intact,
any non-200 outcome leaves the collection intact, and a 200 outcome
happens only with no loan held by the target, the target user then
being removed. -/
theorem route_remove_usuario_spec (us : List Usuario) (ps : Prestamos)
    (current_user identificador : String) :
    (es_admin us current_user = true →
      buscar_prestamos_usuario ps identificador ≠ [] →
      route_remove_usuario us ps current_user identificador = (409, us)) ∧
    ((route_remove_usuario us ps current_user identificador).1 ≠ 200 →
      (route_remove_usuario us ps current_user identificador).2 = us) ∧
    ((route_remove_usuario us ps current_user identificador).1 = 200 →
      buscar_prestamos_usuario ps identificador = [] ∧
      (route_remove_usuario us ps current_user identificador).2 =
        remove_first_usuario us identificador) := by
  by_cases ha : es_admin us current_user = false
  · have hr : route_remove_usuario us ps current_user identificador =
        (403, us) := by
      rw [route_remove_usuario, if_pos ha]
    refine ⟨fun ha2 _ => ?_, fun _ => by rw [hr], fun h => ?_⟩
    · rw [ha2] at ha
      exact absurd ha (by decide)
    · rw [hr] at h
      simp at h
  · by_cases hl : buscar_prestamos_usuario ps identificador = []
    · have hl0 : ¬ buscar_prestamos_usuario ps identificador ≠ [] := by
        simp [hl]
      cases hbu : buscar_usuario us identificador with
      | none =>
          have hr : route_remove_usuario us ps current_user identificador =
              (404, us) := by
            rw [route_remove_usuario, if_neg ha, if_neg hl0]
            simp only [remove_usuario, hbu]
          refine ⟨fun _ hll => absurd hl hll, fun _ => by rw [hr], fun h => ?_⟩
          rw [hr] at h
          simp at h
      | some u =>
          have hr : route_remove_usuario us ps current_user identificador =
              (200, remove_first_usuario us identificador) := by
            rw [route_remove_usuario, if_neg ha, if_neg hl0]
            simp only [remove_usuario, hbu]
          refine ⟨fun _ hll => absurd hl hll, fun hne => ?_, fun _ => ⟨hl, by rw [hr]⟩⟩
          rw [hr] at hne
          exact absurd rfl hne
    · have hr : route_remove_usuario us ps current_user identificador =
          (409, us) := by
        rw [route_remove_usuario, if_neg ha, if_pos hl]
      refine ⟨fun _ _ => hr, fun _ => by rw [hr], fun h => ?_⟩
      rw [hr] at h
      simp at h

/-- C3 witness: with an administrator caller, removing a user who holds
a loan answers 409 and keeps the collection. -/
theorem route_remove_usuario_spec_witness :
    route_remove_usuario
      [⟨"0", "admin", "admin", "admin", "h", true⟩,
       ⟨"2", "x", "y", "z", "h2", false⟩]
      [("i", ⟨"2", 0⟩)] "0" "2" =
      (409, [⟨"0", "admin", "admin", "admin", "h", true⟩,
             ⟨"2", "x", "y", "z", "h2", false⟩]) :=
  (route_remove_usuario_spec
      [⟨"0", "admin", "admin", "admin", "h", true⟩,
       ⟨"2", "x", "y", "z", "h2", false⟩]
      [("i", ⟨"2", 0⟩)] "0" "2").1 (by decide) (by decide)

/-- C4 (code bug): the books manager and the loans manager serialize to
the same storage path, the bare configured `PATH_DATA`, instead of two
per-collection files; saving the loans collection therefore clobbers
the books snapshot, and the subsequent load of the books collection no
longer returns what the books manager last saved. -/
theorem guardar_snapshots_colisionan :
    (∀ PATH_DATA : String, path_libros PATH_DATA = path_prestamos PATH_DATA) ∧
    cargar_libros "data" (guardar_libros "data" (fun _ => none) [libroEjemplo])
      = some [libroEjemplo] ∧
    cargar_libros "data"
      (guardar_prestamos "data"
        (guardar_libros "data" (fun _ => none) [libroEjemplo])
        [("978-1491946008", ⟨"1", 0⟩)]) = none :=
  ⟨fun _ => rfl, by decide, by decide⟩

/-- C5 counterexample: the password Abcdef1!# is at least 8 characters
long and contains a lowercase letter, an uppercase letter, a digit and
a symbol of the fixed set, yet the implemented predicate rejects it:
the bracket expression of the pattern also confines every character to
the class of letters, digits and the seven symbols, and # lies outside
that class. -/
theorem validar_password_counterexample :
    spec_validateStrength "Abcdef1!#" = true ∧
    validar_password "Abcdef1!#" = false := by
  constructor <;> decide

/-- C5 (amended): for a password without a trailing newline (a single
final newline is discounted by the anchor), the implemented predicate
accepts it exactly when it is at least 8 characters long, drawn
entirely from letters, digits and the symbols of the set, and contains
at least one lowercase letter, one uppercase letter, one digit and one
symbol of the set; the two sample evaluations hold as the spec states
them. -/
theorem validar_password_spec (password : String)
    (hnl : password.data.getLast? ≠ some '\n') :
    (validar_password password = true ↔
      (8 ≤ password.length ∧
       (∀ c ∈ password.data, caracter_permitido c = true) ∧
       (∃ c ∈ password.data, c.isLower = true) ∧
       (∃ c ∈ password.data, c.isUpper = true) ∧
       (∃ c ∈ password.data, c.isDigit = true) ∧
       (∃ c ∈ password.data, simbolo_especial c = true))) ∧
    validar_password "abc" = false ∧
    validar_password "Abcdef1!" = true := by
  refine ⟨?_, by decide, by decide⟩
  rw [validar_password]
  simp only [if_neg hnl, Bool.and_eq_true, decide_eq_true_eq,
    List.all_eq_true, List.any_eq_true]
  tauto

/-- C5 witness: the sample strong password evaluates to true. -/
theorem validar_password_spec_witness :
    validar_password "Abcdef1!" = true :=
  (validar_password_spec "Abcdef1!" (by decide)).2.2

/-- Lookup after overwriting the stored hash of the found user. -/
theorem buscar_usuario_set_first (us : List Usuario)
    (identificador nuevo : String) (u : Usuario)
    (hu : buscar_usuario us identificador = some u) :
    buscar_usuario (set_first_password us identificador nuevo) identificador =
      some { u with hashed_password := nuevo } := by
  induction us with
  | nil => exact absurd hu (by simp [buscar_usuario])
  | cons v rest ih =>
      rw [buscar_usuario] at hu
      by_cases hv : v.identificador = identificador
      · rw [if_pos hv] at hu
        obtain rfl := Option.some.inj hu
        rw [set_first_password, if_pos hv, buscar_usuario, if_pos hv]
      · rw [if_neg hv] at hu
        rw [set_first_password, if_neg hv, buscar_usuario, if_neg hv]
        exact ih hu

/-- C6: `cambiar_password` raises `UsuarioNoEncontradoError` exactly
when the user is absent; with the user present and a mismatched old
hash it returns false and leaves the collection untouched; with the
matching old hash it stores the new hash and returns true. -/
theorem cambiar_password_spec (us : List Usuario)
    (identificador old_hash new_hash : String) :
    (cambiar_password us identificador old_hash new_hash =
        .error (.usuarioNoEncontrado identificador) ↔
      buscar_usuario us identificador = none) ∧
    (∀ u, buscar_usuario us identificador = some u →
      old_hash ≠ u.hashed_password →
      cambiar_password us identificador old_hash new_hash = .ok (false, us)) ∧
    (∀ u, buscar_usuario us identificador = some u →
      old_hash = u.hashed_password →
      cambiar_password us identificador old_hash new_hash =
        .ok (true, set_first_password us identificador new_hash) ∧
      buscar_usuario (set_first_password us identificador new_hash)
        identificador = some { u with hashed_password := new_hash }) := by
  refine ⟨?_, fun u hu hne => ?_, fun u hu he => ?_⟩
  · cases hbu : buscar_usuario us identificador with
    | none => simp [cambiar_password, hbu]
    | some u =>
        simp only [cambiar_password, hbu]
        by_cases hh : old_hash = u.hashed_password
        · rw [if_pos hh]
          simp
        · rw [if_neg hh]
          simp
  · simp only [cambiar_password, hu]
    rw [if_neg hne]
  · refine ⟨?_, buscar_usuario_set_first us identificador new_hash u hu⟩
    simp only [cambiar_password, hu]
    rw [if_pos he]

/-- C6 witness: the three outcomes at concrete states. -/
theorem cambiar_password_spec_witness :
    (cambiar_password [] "1" "o" "n" = .error (.usuarioNoEncontrado "1")) ∧
    cambiar_password [⟨"1", "a", "b", "c", "h", false⟩] "1" "x" "n" =
      .ok (false, [⟨"1", "a", "b", "c", "h", false⟩]) ∧
    cambiar_password [⟨"1", "a", "b", "c", "h", false⟩] "1" "h" "n" =
      .ok (true, set_first_password [⟨"1", "a", "b", "c", "h", false⟩] "1" "n") :=
  ⟨(cambiar_password_spec [] "1" "o" "n").1.mpr (by decide),
   (cambiar_password_spec [⟨"1", "a", "b", "c", "h", false⟩] "1" "x" "n").2.1
     ⟨"1", "a", "b", "c", "h", false⟩ (by decide) (by decide),
   ((cambiar_password_spec [⟨"1", "a", "b", "c", "h", false⟩] "1" "h" "n").2.2
     ⟨"1", "a", "b", "c", "h", false⟩ (by decide) (by decide)).1⟩

/-- C7: when a token identifier is not yet revoked, revoking it inserts
the row with the supplied UTC timestamp and answers 200, after which
the revocation check is true; a second revocation of the same
identifier collides on the primary key, answers 409, and leaves the
table exactly as it was. -/
theorem modify_token_spec (ts : TokenStore) (jti fecha fecha2 : String)
    (h : check_if_token_revoked ts jti = false) :
    modify_token ts jti fecha = (200, ts ++ [(jti, fecha)]) ∧
    check_if_token_revoked (ts ++ [(jti, fecha)]) jti = true ∧
    modify_token (ts ++ [(jti, fecha)]) jti fecha2 =
      (409, ts ++ [(jti, fecha)]) := by
  rw [check_if_token_revoked] at h
  refine ⟨by simp [modify_token, h], by simp [check_if_token_revoked],
    by simp [modify_token]⟩

/-- C7 witness: revoking a fresh token, then revoking it again. -/
theorem modify_token_spec_witness :
    modify_token [] "t" "f1" = (200, [("t", "f1")]) ∧
    check_if_token_revoked [("t", "f1")] "t" = true ∧
    modify_token [("t", "f1")] "t" "f2" = (409, [("t", "f1")]) :=
  modify_token_spec [] "t" "f1" "f2" (by decide)

/-- A fresh book appended at the end of the catalog is found. -/
theorem buscar_libro_append (ls : List Libro) (l : Libro)
    (h : buscar_libro ls l.isbn = none) :
    buscar_libro (ls ++ [l]) l.isbn = some l := by
  induction ls with
  | nil => simp [buscar_libro]
  | cons v rest ih =>
      rw [buscar_libro] at h
      rw [List.cons_append, buscar_libro]
      by_cases hv : v.isbn = l.isbn
      · rw [if_pos hv] at h
        exact absurd h (by simp)
      · rw [if_neg hv] at h ⊢
        exact ih h

/-- Removing the single book with a given ISBN from the end restores
the catalog it was appended to. -/
theorem remove_first_libro_append (ls : List Libro) (l : Libro)
    (h : buscar_libro ls l.isbn = none) :
    remove_first_libro (ls ++ [l]) l.isbn = ls := by
  induction ls with
  | nil => simp [remove_first_libro]
  | cons v rest ih =>
      rw [buscar_libro] at h
      rw [List.cons_append, remove_first_libro]
      by_cases hv : v.isbn = l.isbn
      · rw [if_pos hv] at h
        exact absurd h (by simp)
      · rw [if_neg hv] at h ⊢
        rw [ih h]

/-- C8: on every catalog without the given ISBN, adding the book makes
the lookup return exactly the book with the fields passed to add, and
removing that ISBN afterwards makes the lookup miss again. -/
theorem add_find_remove_libro (ls : List Libro) (l : Libro)
    (h : buscar_libro ls l.isbn = none) :
    add_libro ls l = .ok (ls ++ [l]) ∧
    buscar_libro (ls ++ [l]) l.isbn = some l ∧
    remove_libro (ls ++ [l]) l.isbn = .ok ls ∧
    buscar_libro ls l.isbn = none := by
  refine ⟨by rw [add_libro, h], buscar_libro_append ls l h, ?_, h⟩
  simp only [remove_libro, buscar_libro_append ls l h]
  rw [remove_first_libro_append ls l h]

/-- C8 witness: the add-find-remove-find cycle on the empty catalog
with the sample book. -/
theorem add_find_remove_libro_witness :
    add_libro [] libroEjemplo = .ok [libroEjemplo] ∧
    buscar_libro [libroEjemplo] libroEjemplo.isbn = some libroEjemplo ∧
    remove_libro [libroEjemplo] libroEjemplo.isbn = .ok [] ∧
    buscar_libro [] libroEjemplo.isbn = none :=
  add_find_remove_libro [] libroEjemplo (by decide)

/-- C9: the external lookup raises `NoConexionError(isbn)` exactly on a
transport failure or a response with zero results; on a response with a
nonzero count and a first item whose optional authors list, if present,
is non-empty, it builds the book from that first item, defaulting each
missing field to the empty string and keeping only the first 4
characters of the publication date as the year. -/
theorem por_isbn_spec (isbn : String) (r : RespuestaAPI) :
    (por_isbn isbn r = some (.error isbn) ↔
      r = .connectionError ∨ ∃ items, r = .ok 0 items) ∧
    (∀ totalItems vi rest, r = .ok totalItems (vi :: rest) →
      totalItems ≠ 0 → vi.authors ≠ some [] →
      por_isbn isbn r = some (.ok
        { isbn := isbn
          titulo := vi.title.getD ""
          autor := (vi.authors.getD [""]).headD ""
          editorial := vi.publisher.getD ""
          anyo := (vi.publishedDate.getD "").take 4 })) := by
  constructor
  · cases r with
    | connectionError => simp [por_isbn]
    | ok totalItems items =>
        by_cases h0 : totalItems = 0
        · subst h0
          simp [por_isbn]
        · cases items with
          | nil => simp [por_isbn, h0]
          | cons vi rest =>
              cases hh : (vi.authors.getD [""]).head? with
              | none => simp [por_isbn, h0, hh]
              | some a => simp [por_isbn, h0, hh]
  · intro totalItems vi rest hr h0 hauth
    subst hr
    have hne : vi.authors.getD [""] ≠ [] := by
      cases ha : vi.authors with
      | none => simp
      | some l =>
          simp only [Option.getD_some]
          intro hl
          exact hauth (by rw [ha, hl])
    obtain ⟨a, tail, hl⟩ := List.exists_cons_of_ne_nil hne
    simp [por_isbn, h0, hl]

/-- C9 witness: a transport failure fails with the ISBN, and a concrete
one-item response builds the book with the defaults and the truncated
year. -/
theorem por_isbn_spec_witness :
    por_isbn "9781491946008" .connectionError =
      some (.error "9781491946008") ∧
    por_isbn "9781491946008"
      (.ok 1 [⟨some "T", none, none, some "2015-07-30"⟩]) =
      some (.ok ⟨"9781491946008", "T", "", "", "2015"⟩) :=
  ⟨(por_isbn_spec "9781491946008" .connectionError).1.mpr (Or.inl rfl),
   by
    have := (por_isbn_spec "9781491946008"
        (.ok 1 [⟨some "T", none, none, some "2015-07-30"⟩])).2
        1 ⟨some "T", none, none, some "2015-07-30"⟩ [] rfl
        (by decide) (by simp)
    simpa using this⟩

/-- C10: when the user exists, `update_usuario` succeeds and replaces
exactly the first user carrying that identifier by the same record with
the three name fields overwritten; the identifier and the stored hash
of that user, and every other user of the collection, are unchanged in
identity and position. -/
theorem update_usuario_spec (us : List Usuario)
    (identificador nombre apellido1 apellido2 : String) (u : Usuario)
    (hu : buscar_usuario us identificador = some u) :
    ∃ pre post, us = pre ++ u :: post ∧
      (∀ v ∈ pre, v.identificador ≠ identificador) ∧
      update_usuario us identificador nombre apellido1 apellido2 =
        .ok (pre ++ { u with nombre := nombre, apellido1 := apellido1,
                             apellido2 := apellido2 } :: post) := by
  induction us with
  | nil => exact absurd hu (by simp [buscar_usuario])
  | cons v rest ih =>
      rw [buscar_usuario] at hu
      by_cases hv : v.identificador = identificador
      · rw [if_pos hv] at hu
        obtain rfl := Option.some.inj hu
        have hb : buscar_usuario (v :: rest) identificador = some v := by
          rw [buscar_usuario, if_pos hv]
        refine ⟨[], rest, rfl, by simp, ?_⟩
        simp only [update_usuario, hb]
        rw [update_first_usuario, if_pos hv]
        rfl
      · rw [if_neg hv] at hu
        obtain ⟨pre, post, hsplit, hpre, hupd⟩ :=
          ih hu
        have hb : buscar_usuario (v :: rest) identificador = some u := by
          rw [buscar_usuario, if_neg hv]
          exact hu
        refine ⟨v :: pre, post, by rw [List.cons_append, ← hsplit], ?_, ?_⟩
        · intro w hw
          rcases List.mem_cons.mp hw with rfl | hw2
          · exact hv
          · exact hpre w hw2
        · simp only [update_usuario, hb]
          simp only [update_usuario, hu] at hupd
          have hfirst := Except.ok.inj hupd
          rw [update_first_usuario, if_neg hv, hfirst, List.cons_append]

/-- C10 witness: updating the second of two users rewrites its name
fields and keeps everything else. -/
theorem update_usuario_spec_witness :
    ∃ pre post,
      ([⟨"1", "a", "b", "c", "h1", false⟩,
        ⟨"2", "x", "y", "z", "h2", false⟩] : List Usuario) =
        pre ++ ⟨"2", "x", "y", "z", "h2", false⟩ :: post ∧
      (∀ v ∈ pre, v.identificador ≠ "2") ∧
      update_usuario
        [⟨"1", "a", "b", "c", "h1", false⟩,
         ⟨"2", "x", "y", "z", "h2", false⟩] "2" "n" "p" "q" =
        .ok (pre ++ ⟨"2", "n", "p", "q", "h2", false⟩ :: post) :=
  update_usuario_spec
    [⟨"1", "a", "b", "c", "h1", false⟩, ⟨"2", "x", "y", "z", "h2", false⟩]
    "2" "n" "p" "q" ⟨"2", "x", "y", "z", "h2", false⟩ (by decide)

end Biblioteca
